import Mathlib

/-!
Shallow embedding of the PythonFundamentals notebooks: the snippets on
mutable default arguments (CallByAssignment), dictionary-key hashability,
dataclasses, and the descriptor protocol. Mutable Python objects are
modelled by explicit state passing (a heap of list cells, or the object
threaded through the call); raised exceptions are modelled by `Except` or
an `Option PyErr` component of the result.
-/

namespace PythonFundamentals

/-- Runtime errors raised by the snippets in the notebooks. -/
inductive PyErr where
  | typeError (msg : String)
  | keyError (key : List Int)
  | valueError (msg : String)
  | frozenInstanceError (msg : String)
  deriving DecidableEq

/-- A heap of mutable list objects; a reference is an index into the heap. -/
abbrev Heap := List (List Int)

/-- Dereference a list object. -/
def heapGet (h : Heap) (r : Nat) : List Int := h.getD r []

/-- In-place `append`: mutate the list object behind reference `r`. -/
def heapAppend (h : Heap) (r : Nat) (x : Int) : Heap :=
  h.set r (heapGet h r ++ [x])

/-- Model of `hash(tuple(xs))` for a tuple of ints: a deterministic
accumulation over the contents (CPython-style polynomial combination).
Only determinism and dependence on the contents are relied on. -/
def pyTupleHash (xs : List Int) : Int :=
  xs.foldl (fun acc x => acc * 1000003 + x) 3430008

/-- A dictionary-key candidate from the DictionaryKeys notebook: the plain
built-in list `listA`, or a `HashableList` instance (a `list` subclass
defining `__hash__` as `hash(tuple(self))`). Both are references to a
mutable list cell. -/
inductive KeyObj where
  | plainList (r : Nat)
  | hashableList (r : Nat)
  deriving DecidableEq

/-- The heap reference behind a key object. -/
def KeyObj.ref : KeyObj → Nat
  | .plainList r => r
  | .hashableList r => r

/-- `hash(k)`: a plain `list` has `__hash__ = None`, so hashing it raises
TypeError; a `HashableList` returns `hash(tuple(self))` over its current
contents. -/
def keyObjHash (h : Heap) : KeyObj → Except PyErr Int
  | .plainList _ => .error (.typeError "unhashable type: list")
  | .hashableList r => .ok (pyTupleHash (heapGet h r))

/-- One entry of a dict: the hash stored at insertion time, the reference
to the key object, and the value. -/
structure DictEntry where
  storedHash : Int
  keyRef : Nat
  value : Int
  deriving DecidableEq

/-- Dict display `{k: v}`: hash the key (propagating TypeError) and store
the entry under that hash. -/
def dictCreate (h : Heap) (k : KeyObj) (v : Int) : Except PyErr (List DictEntry) := do
  let hv ← keyObjHash h k
  return [⟨hv, k.ref, v⟩]

/-- Subscript `d[k]`: hash the key, then look for an entry whose stored
hash equals the key's current hash and whose key object is the same object
or an equal list; raise KeyError when no entry matches. -/
def dictGetItem (h : Heap) (d : List DictEntry) (k : KeyObj) : Except PyErr Int := do
  let hv ← keyObjHash h k
  match d.find? (fun e =>
      e.storedHash == hv && (e.keyRef == k.ref || heapGet h e.keyRef == heapGet h k.ref)) with
  | some e => return e.value
  | none => .error (.keyError (heapGet h k.ref))

/-- The heap holding `listB = HashableList([1, 2, 3])` at reference 0. -/
def listBHeap : Heap := [[1, 2, 3]]

/-- The key object `listB`. -/
def listB : KeyObj := .hashableList 0

/-- The dict `dictB = {listB: 1}` as built over `listBHeap`. -/
def dictB : List DictEntry := [⟨pyTupleHash [1, 2, 3], 0, 1⟩]

/-- `func1` from CallByAssignment: `y += [x]` mutates the default list
object in place, and that object persists across calls, so the default is
threaded as state. Result: (default object after the call, returned list). -/
def func1 (defaultY : List Int) (x : Int) : List Int × List Int :=
  let y := defaultY ++ [x]
  (y, y)

/-- `func2` from CallByAssignment: `y += (x,)` on a tuple builds a new
tuple and rebinds the local `y`; the default tuple object is unchanged.
Result: (default object after the call, returned tuple). -/
def func2 (defaultY : List Int) (x : Int) : List Int × List Int :=
  let y := defaultY ++ [x]
  (defaultY, y)

/-- The dataclass `DcPerson(first_name, last_name, age)`. -/
structure DcPerson where
  first_name : String
  last_name : String
  age : Int
  deriving DecidableEq

/-- The dataclass-generated `__eq__`: field-by-field comparison in
declaration order. -/
def dcPersonEq (a b : DcPerson) : Bool :=
  a.first_name == b.first_name && a.last_name == b.last_name && a.age == b.age

/-- A hand-written `Person(first_name, last_name, age)` instance: the
object identity (`id`) together with the fields set in `__init__`. -/
structure PersonObj where
  id : Nat
  first_name : String
  last_name : String
  age : Int
  deriving DecidableEq

/-- The default `object.__eq__` of a hand-written class: identity
comparison. -/
def personObjEq (a b : PersonObj) : Bool := a.id == b.id

/-- Python string comparison of two characters: by code point. -/
def pyCharLt (a b : Char) : Bool := a.toNat < b.toNat

/-- Python string comparison, lexicographic by code point; a strict
prefix is smaller. -/
def pyCharListLt : List Char → List Char → Bool
  | [], [] => false
  | [], _ :: _ => true
  | _ :: _, [] => false
  | a :: as, b :: bs =>
    if pyCharLt a b then true
    else if a.toNat == b.toNat then pyCharListLt as bs
    else false

/-- Python `a < b` on strings. -/
def pyStrLt (a b : String) : Bool := pyCharListLt a.data b.data

/-- The dataclass `PersonOrder(name, age)` declared with `order=True`. -/
structure PersonOrder where
  name : String
  age : Int
  deriving DecidableEq

/-- The generated `__gt__` of `PersonOrder`: compare the tuple of fields
in declaration order, `(name, age) > (name, age)`. -/
def personOrderGt (a b : PersonOrder) : Bool :=
  if pyStrLt b.name a.name then true
  else if a.name == b.name then decide (b.age < a.age)
  else false

/-- The dataclass `PersonOrderAge`: `name` is `field(compare=False)`. -/
structure PersonOrderAge where
  name : String
  age : Int
  deriving DecidableEq

/-- The generated `__gt__` of `PersonOrderAge`: `name` is excluded from
the comparison tuple, so only `(age,) > (age,)` is compared. -/
def personOrderAgeGt (a b : PersonOrderAge) : Bool := decide (b.age < a.age)

/-- The dataclass `PersonFrozen(name, age)` declared with `frozen=True`. -/
structure PersonFrozen where
  name : String
  age : Int
  deriving DecidableEq

/-- The statement `p.age = v` on a dataclass instance: with `frozen=True`
the generated `__setattr__` raises FrozenInstanceError before any field
changes; without it the field is updated. Result: (instance after the
statement, raised error if any). -/
def setAgeAttr (frozen : Bool) (p : PersonFrozen) (v : Int) : PersonFrozen × Option PyErr :=
  if frozen then (p, some (.frozenInstanceError "cannot assign to field age"))
  else (⟨p.name, v⟩, none)

/-- The dataclass `PersonPostInit`: fields `name`, `age`,
`email = field(default=...)` and `is_adult = field(init=False)`. -/
structure PersonPostInit where
  name : String
  age : Int
  email : String
  is_adult : Bool
  deriving DecidableEq

/-- The generated `__init__` (parameters `name`, `age`, `email` only,
since `is_adult` has `init=False`) followed by `__post_init__`: raise
ValueError when `age < 0`, else set `is_adult` to `age >= 18`. -/
def mkPersonPostInit (name : String) (age : Int) (email : String) :
    Except PyErr PersonPostInit :=
  if age < 0 then .error (.valueError ("Age " ++ toString age ++ " is not valid"))
  else .ok ⟨name, age, email, decide (18 ≤ age)⟩

/-- A call `PersonPostInit(name, age, email)` with an optional keyword
argument `is_adult`: `is_adult` is not a parameter of the generated
`__init__`, so passing it raises TypeError before any construction. -/
def callPersonPostInit (name : String) (age : Int) (email : String)
    (isAdultKw : Option Bool) : Except PyErr PersonPostInit :=
  match isAdultKw with
  | some _ =>
    .error (.typeError "PersonPostInit.__init__() got an unexpected keyword argument is_adult")
  | none => mkPersonPostInit name age email

/-- A `ValidationDescriptor` from the Descriptors notebook: the state set
by `__init__` (`default_value = 0`, `min`, `max`) and by `__set_name__`
(the managed attribute's `name`). -/
structure ValidationDescriptor where
  default_value : Int
  min : Int
  max : Int
  name : String
  deriving DecidableEq

/-- `ValidationDescriptor(min_, max_)` followed by
`__set_name__(owner, name)`. -/
def mkValidationDescriptor (min_ max_ : Int) (name : String) : ValidationDescriptor :=
  ⟨0, min_, max_, name⟩

/-- An instance `__dict__` restricted to the int-valued attributes the
snippet uses. -/
abbrev InstanceDict := List (String × Int)

/-- `instance.__dict__.get(key, default)`. -/
def objDictGet (d : InstanceDict) (k : String) (dft : Int) : Int :=
  match d with
  | [] => dft
  | p :: rest => if p.1 == k then p.2 else objDictGet rest k dft

/-- `instance.__dict__[key] = v`. -/
def objDictSet (d : InstanceDict) (k : String) (v : Int) : InstanceDict :=
  match d with
  | [] => [(k, v)]
  | p :: rest => if p.1 == k then (k, v) :: rest else p :: objDictSet rest k v

/-- `ValidationDescriptor.__get__`: return
`instance.__dict__.get(self.name, self.default_value)`. -/
def vGet (desc : ValidationDescriptor) (d : InstanceDict) : Int :=
  objDictGet d desc.name desc.default_value

/-- The ValueError message built by `ValidationDescriptor.__set__`. -/
def pyValidationMsg (v mn mx : Int) : String :=
  toString v ++ " must be between " ++ toString mn ++ " and " ++ toString mx

/-- `ValidationDescriptor.__set__`: raise ValueError unless
`self.min <= value <= self.max`; the raise happens before the store into
`instance.__dict__[self.name]`. Result: (the `__dict__` after the
statement, raised error if any). -/
def vSet (desc : ValidationDescriptor) (d : InstanceDict) (v : Int) :
    InstanceDict × Option PyErr :=
  if desc.min ≤ v ∧ v ≤ desc.max then (objDictSet d desc.name v, none)
  else (d, some (.valueError (pyValidationMsg v desc.min desc.max)))

/-- The class attribute `value1 = ValidationDescriptor(min_=0, max_=100)`
of `MyClass`. -/
def value1Desc : ValidationDescriptor := mkValidationDescriptor 0 100 "value1"

/-- The class attribute `value2 = ValidationDescriptor(min_=0, max_=100)`
of `MyClass`. -/
def value2Desc : ValidationDescriptor := mkValidationDescriptor 0 100 "value2"

/-- The dataclass `PersonDefaultFactory`: fields `name`, `age`, `email`
and `list_values = field(default_factory=list)`; `list_values` holds a
reference to a list object in the heap. -/
structure PersonDefaultFactory where
  name : String
  age : Int
  email : String
  list_values : Nat
  deriving DecidableEq

/-- `PersonDefaultFactory(name, age, email)`: the generated `__init__`
calls `default_factory` anew for this construction, allocating a fresh
empty list cell in the heap for `list_values`. -/
def mkPersonDefaultFactory (s : Heap) (name : String) (age : Int) (email : String) :
    Heap × PersonDefaultFactory :=
  (s ++ [[]], ⟨name, age, email, s.length⟩)

/-- The notebook lines: construct `person10` and `person11`, then run
`person10.list_values.append(1)`. Result: (final heap, person10,
person11). -/
def personDefaultFactoryScenario (s : Heap) :
    Heap × PersonDefaultFactory × PersonDefaultFactory :=
  let r10 := mkPersonDefaultFactory s "Eve" 45 "test@test.com"
  let r11 := mkPersonDefaultFactory r10.1 "Dave" 40 "dave@tests.com"
  (heapAppend r11.1 r10.2.list_values 1, r10.2, r11.2)

/-- Looking up a key right after storing it under that key returns the
stored value, whatever the dict held before. -/
theorem objDictGet_objDictSet (d : InstanceDict) (k : String) (v dft : Int) :
    objDictGet (objDictSet d k v) k dft = v := by
  induction d with
  | nil => simp [objDictSet, objDictGet]
  | cons p rest ih =>
    unfold objDictSet
    by_cases hp : p.1 == k
    · simp [hp, objDictGet]
    · simp [hp, objDictGet, ih]

/-- The two cells allocated by two consecutive constructions are fresh:
the first new index reads empty, appending 1 there yields [1] and leaves
the second new cell empty. -/
theorem freshListCells (s : Heap) :
    heapGet (s ++ [[]] ++ [[]]) s.length = [] ∧
    heapGet (heapAppend (s ++ [[]] ++ [[]]) s.length 1) s.length = [1] ∧
    heapGet (heapAppend (s ++ [[]] ++ [[]]) s.length 1) (s.length + 1) = [] := by
  induction s with
  | nil => decide
  | cons a t ih =>
    simpa [heapGet, heapAppend, List.getD] using ih

/-- C1: for func1 (default []) and func2 (default ()) the default is
evaluated once at definition time; two calls without the second argument
give func1 [1] then [1, 2] (the shared default list accumulates), while
func2 gives (1,) then (2,) because += on a tuple rebinds to a new tuple
and leaves the default () unchanged. -/
theorem c1_default_argument_mutability :
    (func1 [] 1).2 = [1] ∧ (func1 (func1 [] 1).1 2).2 = [1, 2] ∧
    (func2 [] 1).2 = [1] ∧ (func2 [] 1).1 = [] ∧ (func2 (func2 [] 1).1 2).2 = [2] := by
  decide

/-- C2: hashability, not immutability, decides dict-key eligibility: the
plain list listA as a key raises TypeError (unhashable type), while the
HashableList listB (hash(tuple(self))) builds dictB and dictB[listB]
returns the stored 1. -/
theorem c2_hashability_decides_key_eligibility :
    dictCreate [[1, 2, 3]] (.plainList 0) 1 = .error (.typeError "unhashable type: list") ∧
    dictCreate listBHeap listB 1 = .ok dictB ∧
    dictGetItem listBHeap dictB listB = .ok 1 :=
  ⟨rfl, rfl, rfl⟩

/-- C3: after listB.append(4), the hash of the HashableList key no longer
matches the hash stored when dictB was built, so dictB[listB] raises
KeyError. -/
theorem c3_mutated_key_breaks_lookup :
    heapAppend listBHeap 0 4 = [[1, 2, 3, 4]] ∧
    pyTupleHash [1, 2, 3] ≠ pyTupleHash [1, 2, 3, 4] ∧
    dictGetItem (heapAppend listBHeap 0 4) dictB listB = .error (.keyError [1, 2, 3, 4]) :=
  ⟨rfl, by decide, rfl⟩

/-- C4: two DcPerson dataclass instances built from the identical field
values (Jas, Gujral, 35) compare equal field by field, while two distinct
hand-written Person instances built from the same values compare unequal,
because the default equality is identity. -/
theorem c4_dataclass_vs_handwritten_equality (i j : Nat) (h : i ≠ j) :
    dcPersonEq ⟨"Jas", "Gujral", 35⟩ ⟨"Jas", "Gujral", 35⟩ = true ∧
    personObjEq ⟨i, "Jas", "Gujral", 35⟩ ⟨j, "Jas", "Gujral", 35⟩ = false := by
  exact ⟨by decide, by simpa [personObjEq] using h⟩

/-- Witness for C4 at the concrete object identities 0 and 1. -/
theorem c4_dataclass_vs_handwritten_equality_witness :
    dcPersonEq ⟨"Jas", "Gujral", 35⟩ ⟨"Jas", "Gujral", 35⟩ = true ∧
    personObjEq ⟨0, "Jas", "Gujral", 35⟩ ⟨1, "Jas", "Gujral", 35⟩ = false :=
  c4_dataclass_vs_handwritten_equality 0 1 (by decide)

/-- C5: order=True compares fields in declaration order, and a
compare=False field is skipped: PersonOrder (Alice, 30) > (Bob, 25) is
False because the names are compared first, while PersonOrderAge
(Alice, 30) > (Bob, 25) is True because only the ages are compared. -/
theorem c5_ordering_declaration_order_and_compare_false :
    personOrderGt ⟨"Alice", 30⟩ ⟨"Bob", 25⟩ = false ∧
    personOrderAgeGt ⟨"Alice", 30⟩ ⟨"Bob", 25⟩ = true := by
  decide

/-- C6: a frozen=True dataclass is immutable: on every PersonFrozen
instance, assigning to the age field raises FrozenInstanceError (cannot
assign to field) and the instance keeps its original field values. -/
theorem c6_frozen_dataclass_immutable (p : PersonFrozen) (v : Int) :
    setAgeAttr true p v = (p, some (.frozenInstanceError "cannot assign to field age")) := by
  simp [setAgeAttr]

/-- C7: is_adult has init=False so passing it as a keyword raises
TypeError; construction with age >= 0 succeeds and __post_init__ sets
is_adult to age >= 18; construction with age < 0 raises ValueError. -/
theorem c7_post_init_behaviour (name email : String) (age badAge : Int) (b : Bool)
    (h : 0 ≤ age) (hbad : badAge < 0) :
    callPersonPostInit name age email (some b) =
      .error (.typeError "PersonPostInit.__init__() got an unexpected keyword argument is_adult") ∧
    callPersonPostInit name age email none = .ok ⟨name, age, email, decide (18 ≤ age)⟩ ∧
    callPersonPostInit name badAge email none =
      .error (.valueError ("Age " ++ toString badAge ++ " is not valid")) := by
  refine ⟨rfl, ?_, ?_⟩
  · show mkPersonPostInit name age email = _
    unfold mkPersonPostInit
    rw [if_neg (by omega)]
  · show mkPersonPostInit name badAge email = _
    unfold mkPersonPostInit
    rw [if_pos hbad]

/-- Witness for C7 at the notebook inputs: Alice aged 25 and a negative
age -1. -/
theorem c7_post_init_behaviour_witness :
    callPersonPostInit "Alice" 25 "test" (some false) =
      .error (.typeError "PersonPostInit.__init__() got an unexpected keyword argument is_adult") ∧
    callPersonPostInit "Alice" 25 "test" none = .ok ⟨"Alice", 25, "test", decide (18 ≤ (25 : Int))⟩ ∧
    callPersonPostInit "Alice" (-1) "test" none =
      .error (.valueError ("Age " ++ toString (-1 : Int) ++ " is not valid")) :=
  c7_post_init_behaviour "Alice" "test" 25 (-1) false (by decide) (by decide)

/-- C8: for the value1 and value2 descriptors of MyClass (min 0, max
100), __set__ raises ValueError exactly when the value is outside
[0, 100], and otherwise stores the value in the instance __dict__ under
the attribute's name, so a subsequent __get__ returns it. -/
theorem c8_descriptor_validation (desc : ValidationDescriptor) (d : InstanceDict) (v : Int)
    (hdesc : desc = value1Desc ∨ desc = value2Desc) :
    (0 ≤ v ∧ v ≤ 100 →
      vSet desc d v = (objDictSet d desc.name v, none) ∧
      vGet desc (objDictSet d desc.name v) = v) ∧
    (v < 0 ∨ 100 < v →
      vSet desc d v = (d, some (.valueError (pyValidationMsg v 0 100)))) := by
  rcases hdesc with h | h <;> subst h <;>
    refine ⟨fun hv => ⟨?_, ?_⟩, fun hv => ?_⟩ <;>
    simp only [vSet, vGet, value1Desc, value2Desc, mkValidationDescriptor] <;>
    first
      | rw [if_pos hv]
      | rw [if_neg (by omega)]
      | exact objDictGet_objDictSet ..

/-- Witness for C8: storing 50 succeeds and reads back as 50; storing
200 raises ValueError. -/
theorem c8_descriptor_validation_witness :
    vSet value1Desc [] 50 = (objDictSet [] "value1" 50, none) ∧
    vGet value1Desc (objDictSet [] "value1" 50) = 50 ∧
    vSet value2Desc [] 200 = ([], some (.valueError (pyValidationMsg 200 0 100))) := by
  refine ⟨?_, ?_, ?_⟩
  · exact ((c8_descriptor_validation value1Desc [] 50 (Or.inl rfl)).1 (by decide)).1
  · exact ((c8_descriptor_validation value1Desc [] 50 (Or.inl rfl)).1 (by decide)).2
  · exact (c8_descriptor_validation value2Desc [] 200 (Or.inr rfl)).2 (by decide)

/-- C9: a failed __set__ is atomic: on an out-of-range value the ValueError
is raised before the store, the instance __dict__ is unchanged, so a
subsequent __get__ returns the previously stored value; and on an instance
whose attribute was never set, __get__ returns the default_value 0. -/
theorem c9_descriptor_atomic_failure (d : InstanceDict) (v : Int) (h : v < 0 ∨ 100 < v) :
    (vSet value1Desc d v).1 = d ∧
    (vSet value1Desc d v).2 = some (.valueError (pyValidationMsg v 0 100)) ∧
    vGet value1Desc (vSet value1Desc d v).1 = vGet value1Desc d ∧
    vGet value1Desc [] = 0 := by
  have he : vSet value1Desc d v = (d, some (.valueError (pyValidationMsg v 0 100))) := by
    simp only [vSet, value1Desc, mkValidationDescriptor]
    rw [if_neg (by omega)]
  exact ⟨by rw [he], by rw [he], by rw [he], rfl⟩

/-- Witness for C9: attempting to store 200 over a stored 40 fails and
leaves 40 readable; the empty dict reads as 0. -/
theorem c9_descriptor_atomic_failure_witness :
    (vSet value1Desc [("value1", 40)] 200).1 = [("value1", 40)] ∧
    (vSet value1Desc [("value1", 40)] 200).2 = some (.valueError (pyValidationMsg 200 0 100)) ∧
    vGet value1Desc (vSet value1Desc [("value1", 40)] 200).1 = vGet value1Desc [("value1", 40)] ∧
    vGet value1Desc [] = 0 :=
  c9_descriptor_atomic_failure [("value1", 40)] 200 (by decide)

/-- C10: default_factory=list gives each PersonDefaultFactory instance a
fresh list: person10 and person11 hold different list objects, and after
person10.list_values.append(1) person10 reads [1] while person11 still
reads [], whatever the heap held before. -/
theorem c10_default_factory_fresh_lists (s : Heap) :
    (personDefaultFactoryScenario s).2.1.list_values ≠
      (personDefaultFactoryScenario s).2.2.list_values ∧
    heapGet (personDefaultFactoryScenario s).1
      (personDefaultFactoryScenario s).2.1.list_values = [1] ∧
    heapGet (personDefaultFactoryScenario s).1
      (personDefaultFactoryScenario s).2.2.list_values = [] := by
  have h := freshListCells s
  simp only [personDefaultFactoryScenario, mkPersonDefaultFactory]
  refine ⟨by simp, ?_, ?_⟩
  · exact h.2.1
  · simpa using h.2.2

end PythonFundamentals
